import Mathlib

/-!
Verification development for the FloChat question-answering and escalation
pipeline (backend/app/api/chat.py, backend/app/api/handoff.py,
backend/app/utils/google_auth.py).

Strings are modelled as `List Char`; Python string operations used by the
code (`lower`, `replace`, `strip`, the `in` substring test) are defined
below over that representation.  External collaborators (database rows,
Google Drive metadata, the LiteLLM provider) are supplied as oracle fields
of an environment record, so the handler's control flow is a total
function of the request and that environment.
-/

namespace FloChat

/-- Character-list representation of Python strings. -/
abbrev Str := List Char

/-- Python `str.lower()` (ASCII case folding, as used by the code's tokens). -/
def toLowerStr (s : Str) : Str := s.map Char.toLower

/-- Python's substring test `tok in s`. -/
def containsSub (tok : Str) : Str → Bool
  | [] => tok.isPrefixOf ([] : Str)
  | c :: rest => tok.isPrefixOf (c :: rest) || containsSub tok rest

/-- Fuelled worker for `removeAll`; the fuel only serves termination and is
always instantiated with the length of the scanned string, which is an
upper bound on the number of recursion steps. -/
def removeAllF (tok : Str) : Nat → Str → Str
  | 0, _ => []
  | _ + 1, [] => []
  | n + 1, c :: rest =>
    if tok.isPrefixOf (c :: rest) then
      removeAllF tok n ((c :: rest).drop tok.length)
    else
      c :: removeAllF tok n rest

/-- Python `s.replace(tok, "")` for a non-empty `tok`: scan left to right,
deleting each non-overlapping occurrence of `tok`. -/
def removeAll (tok s : Str) : Str := removeAllF tok s.length s

/-- Python `str.strip()`: drop whitespace from both ends. -/
def pyStrip (s : Str) : Str :=
  ((s.dropWhile Char.isWhitespace).reverse.dropWhile Char.isWhitespace).reverse

/-- The reserved escalation token, lower-cased as the code matches it
(chat.py line 182). -/
def handoffToken : Str := "[handoff_required]".toList

/-- The reserved lead-capture token, lower-cased as the code matches it
(chat.py line 187). -/
def leadToken : Str := "[lead_required]".toList

/-- The fixed apologetic hand-off reply (chat.py line 184). -/
def apologyMsg : Str :=
  "I'm sorry, I don't have the exact information for that right now. I will escalate this to a human representative.".toList

/-- Result of the response classification step (chat.py lines 177-190). -/
structure ClassifyResult where
  is_handoff : Bool
  is_lead : Bool
  frontend_reply : Str
deriving DecidableEq, Repr

/-- Response classifier, translated from chat.py lines 177-190:
`"[handoff_required]" in bot_reply.lower()` selects the fixed apology;
otherwise `"[lead_required]" in bot_reply.lower()` selects
`bot_reply.lower().replace("[lead_required]", "").strip()`;
otherwise the raw text passes through. -/
def classify (bot_reply : Str) : ClassifyResult :=
  if containsSub handoffToken (toLowerStr bot_reply) = true then
    ⟨true, false, apologyMsg⟩
  else if containsSub leadToken (toLowerStr bot_reply) = true then
    ⟨false, true, pyStrip (removeAll leadToken (toLowerStr bot_reply))⟩
  else
    ⟨false, false, bot_reply⟩

/-- One transcript turn, as stored in `chat_sessions.messages` (a JSON list
of `{"role': .., "content": ..}` objects, role ∈ {"user", "model"}). -/
structure Turn where
  role : Str
  content : Str
deriving DecidableEq, Repr

/-- A `chat_sessions` row as touched by the upsert (chat.py lines 197-208).
`estimated_cost` is stored by the code as a float; only its additive
structure matters here, so it is modelled as an integer number of
micro-currency units.  `total_tokens` is likewise an integer column. -/
structure SessionRow where
  messages : List Turn
  total_tokens : Int
  estimated_cost : Int
  model_used : Str
  handoff_triggered : Bool
deriving DecidableEq, Repr

/-- The `INSERT ... ON CONFLICT (session_id) DO UPDATE SET` statement of
chat.py lines 197-208, read as a function on the keyed store: on conflict,
`messages`/`model_used` come from the EXCLUDED (new) row, the token and
cost counters add the EXCLUDED values to the stored ones, and
`handoff_triggered` is OR'd; with no conflict the new row is inserted. -/
def applyUpsert (store : Str → Option SessionRow) (sid : Str) (new : SessionRow) :
    Str → Option SessionRow :=
  fun k =>
    if k = sid then
      match store sid with
      | some old =>
        some { messages := new.messages
               total_tokens := old.total_tokens + new.total_tokens
               estimated_cost := old.estimated_cost + new.estimated_cost
               model_used := new.model_used
               handoff_triggered := old.handoff_triggered || new.handoff_triggered }
      | none => some new
    else store k

/-- The spec's explicit merge function, written from its words: "merge(old,
new) -> \x7btranscript: new.transcript, tokens: old.tokens+new.tokens, cost:
old.cost+new.cost, model: new.model, escalated: old.escalated OR
new.escalated\x7d" (spec section 9, Session Ledger design note). -/
def mergeSpec (old new : SessionRow) : SessionRow :=
  { messages := new.messages
    total_tokens := old.total_tokens + new.total_tokens
    estimated_cost := old.estimated_cost + new.estimated_cost
    model_used := new.model_used
    handoff_triggered := old.handoff_triggered || new.handoff_triggered }

/-- A timestamp as read back from the `last_synced_at` column: a naive
wall-clock value plus an optional stored UTC offset.  `dateutil`-parsed
Google times are always offset-aware and are modelled directly as UTC
instants (`Int`). -/
structure DbTs where
  naive : Int
  tzOffset : Option Int
deriving DecidableEq, Repr

/-- UTC instant denoted by a stored timestamp: an aware value subtracts its
offset; a naive value is reinterpreted as UTC, exactly the effect of
`db_last_synced.replace(tzinfo=timezone.utc)` in chat.py lines 73-74. -/
def toInstant (ts : DbTs) : Int := ts.naive - ts.tzOffset.getD 0

/-- One `knowledge_bases` row (chat.py line 52).  SQL NULL text columns are
modelled as the empty string, which is Python-falsy exactly like None in
every test the code performs on them. -/
structure KbRow where
  file_id : Str
  file_type : Str
  sheet_range : Str
  cached_content : Str
  last_synced : Option DbTs
deriving DecidableEq, Repr

/-- A `clients` row as read by the chat handler (chat.py lines 35-42),
with NULL columns as empty strings. -/
structure ClientRow where
  business_name : Str
  api_key : Str
  ai_provider : Str
  model_name : Str
  system_instruction : Str
deriving DecidableEq, Repr

/-- The provider response, as far as the handler reads it: the text of
choice 0, an optional `usage.total_tokens`, and an optional result of
`completion_cost` (None models the nested cost failure of chat.py lines
166-171; cost in integer micro-units as in `SessionRow`). -/
structure CompletionRes where
  text : Str
  usage : Option Int
  cost : Option Int
deriving DecidableEq, Repr

/-- The request body of `POST /api/chat` (chat.py lines 22-25).
`temp_context`, when present, stands for the already-serialized inline
data grid (`json.dumps(temp_context)`). -/
structure ChatRequest where
  client_id : Str
  message : Str
  session_id : Option Str
  temp_context : Option Str
deriving DecidableEq, Repr

/-- Everything the handler observes from outside on one request: database
rows and the outcomes of every external call, supplied as oracles.
`modifiedTime` is the Drive metadata fetch (None = the call raised);
`syncResult` is `sync_knowledge_base` (None = it returned None);
`parseJson` is `json.loads` on a cached snapshot (None = JSONDecodeError),
returning the record list a snapshot contributes; `tokenEstimate` is the
`token_counter`/`get_max_tokens` pair (None = that block raised);
`completionResult` is the LiteLLM call (None = it raised);
`writeOk` tells whether the `chat_sessions` write succeeds or raises. -/
structure ChatEnv where
  clientRow : Option ClientRow
  kbs : List KbRow
  driveOk : Bool
  modifiedTime : Str → Option Int
  syncResult : Str → Option Str
  parseJson : Str → Option (List Str)
  sessionRow : Option (List Turn)
  resolved : List (Str × Str)
  tokenEstimate : Option (Nat × Option Nat)
  completionResult : Option CompletionRes
  provErrText : Str
  writeOk : Bool

/-- Result of the per-binding part of the aggregation loop. -/
structure BindingResult where
  fetchCalls : Nat
  content : Str
deriving DecidableEq, Repr

/-- One iteration of the aggregation loop, chat.py lines 61-82: decide
staleness for a spreadsheet binding (never-synced, or the Drive
modification instant strictly newer than the stored one after the UTC
normalization; on a metadata exception, stale only when no cache exists),
then call `sync_knowledge_base` when stale, keeping the cache if the sync
returns a falsy value.  `fetchCalls` counts `sync_knowledge_base` calls,
the only record-fetch the loop can perform. -/
def bindingStep (env : ChatEnv) (kb : KbRow) : BindingResult :=
  let current := kb.cached_content
  let need_sync :=
    if kb.file_type = "sheet".toList ∧ env.driveOk = true ∧ ¬kb.file_id.isEmpty = true then
      match env.modifiedTime kb.file_id with
      | some google_time =>
        match kb.last_synced with
        | none => true
        | some db_ts => decide (toInstant db_ts < google_time)
      | none => current.isEmpty
    else false
  if need_sync then
    match env.syncResult kb.file_id with
    | some updated => ⟨1, if ¬updated.isEmpty = true then updated else current⟩
    | none => ⟨1, current⟩
  else ⟨0, current⟩

/-- The records a binding's final content adds to `combined_data`
(chat.py lines 85-89): nothing when the content is falsy, the literal
"[]", or fails to parse. -/
def contribution (env : ChatEnv) (content : Str) : List Str :=
  if content.isEmpty = false ∧ content ≠ "[]".toList then
    match env.parseJson content with
    | some recs => recs
    | none => []
  else []

/-- The whole aggregation loop over a tenant's bindings: total number of
record-fetch (sync) calls, and the combined record list. -/
def aggregate (env : ChatEnv) : Nat × List Str :=
  env.kbs.foldl
    (fun acc kb =>
      let r := bindingStep env kb
      (acc.1 + r.fetchCalls, acc.2 ++ contribution env r.content))
    (0, [])

/-- Fixed reply for an unknown tenant (chat.py line 41). -/
def invalidClientMsg : Str := "Invalid Client ID".toList

/-- Fixed reply when credential or model is missing (chat.py line 45). -/
def notConfiguredMsg : Str :=
  "AI Provider not configured. Please add your API key in the dashboard.".toList

/-- Fixed not-ready reply for a tenant with zero bindings (chat.py line 56). -/
def notReadyConfigMsg : Str :=
  "I'm not ready yet. Please configure my knowledge base.".toList

/-- Fixed not-ready reply when every binding contributed nothing
(chat.py line 92). -/
def notReadyEmptyMsg : Str :=
  "I'm not ready yet. My knowledge bases are currently empty.".toList

/-- The system note used in inline-grid mode (chat.py line 50). -/
def gridNote : Str :=
  "IMPORTANT: Answer solely based on the USER PROVIDED DATA GRID below.".toList

/-- The system note used in knowledge-base mode (chat.py lines 96-103). -/
def kbNote : Str :=
  ("CRITICAL INSTRUCTION: You will answer greetings but " ++
   "if the question is about a product you MUST answer based STRICTLY on " ++
   "the DATA provided above. If the exact answer is not present in the DATA, " ++
   "do not guess, do not apologize, and do not explain yourself. Instead, you " ++
   "MUST output exactly and only this string: [HANDOFF_REQUIRED]. " ++
   "If a user asks for a product that is out of stock or not available, or if they " ++
   "don't find what they are looking for but show purchasing intent, output EXACTLY " ++
   "this string at the end of your response: [LEAD_REQUIRED]").toList

/-- The context-limit warning (chat.py line 146), parameterized exactly by
the f-string's holes: model name, token estimate, effective maximum. -/
def warningMsg (model : Str) (tokens maxTok : Nat) : Str :=
  "Warning: Your knowledge base is too large for the selected model (".toList ++
  model ++
  "). It uses ".toList ++ (Nat.repr tokens).toList ++
  " tokens but the limit is ".toList ++ (Nat.repr maxTok).toList ++
  ". Please reduce your sheet size or upgrade to a model with a larger context window (like gemini-2.5-flash or claude-3.5-sonnet).".toList

/-- `json.dumps(combined_data)`: the combined records serialized back into
one JSON array text; the exact element serialization is opaque, so records
are joined as-is with the canonical separators. -/
def joinComma : List Str → Str
  | [] => []
  | [r] => r
  | r :: rs => r ++ ", ".toList ++ joinComma rs

/-- Serialized aggregate knowledge blob. -/
def jsonArrOf (records : List Str) : Str :=
  "[".toList ++ joinComma records ++ "]".toList

/-- `chat_history[-6:]`: the most recent six turns (chat.py line 114). -/
def lastN (n : Nat) (l : List Turn) : List Turn := l.drop (l.length - n)

/-- Role normalization of chat.py lines 131-133: stored "model" turns are
submitted as "assistant". -/
def mapRole (t : Turn) : Turn :=
  if t.role = "model".toList then ⟨"assistant".toList, t.content⟩ else t

/-- The learned-context block of chat.py lines 120-124. -/
def learnedContext (resolved : List (Str × Str)) : Str :=
  if resolved = [] then [] else
    resolved.foldl
      (fun acc qa =>
        acc ++ "Q: ".toList ++ qa.1 ++ "\nA: ".toList ++ qa.2 ++ "\n\n".toList)
      "\n\nPREVIOUSLY ANSWERED QUESTIONS (If the user asks something similar to these, answer using this exact information):\n".toList

/-- The full system prompt f-string of chat.py line 127. -/
def systemPrompt (cr : ClientRow) (knowledge learned note : Str) : Str :=
  "ROLE: ".toList ++
  (if cr.system_instruction.isEmpty = true then "Helpful Assistant".toList
   else cr.system_instruction) ++
  " for ".toList ++ cr.business_name ++ ".\n\nDATA:\n".toList ++
  knowledge ++ learned ++ "\n\n".toList ++ note

/-- A JSON body on the chat path: the reply string plus the optional
`handoff`/`lead` flags (absent flags modelled as `false`). -/
structure RespBody where
  reply : Str
  handoff : Bool
  lead : Bool
deriving DecidableEq, Repr

/-- What the caller of `/api/chat` observes: a 200 JSON body, a JSON body
with an explicit error status, or an exception that escapes the handler
(Flask then serves its default error page, with no JSON body). -/
inductive ChatResult where
  | ok (body : RespBody)
  | err (body : RespBody) (status : Nat)
  | exn
deriving DecidableEq, Repr

/-- An early return taken before the provider call. -/
structure EarlyExit where
  response : ChatResult
  fetchCalls : Nat
deriving DecidableEq, Repr

/-- What survives of stages 1-5 when the handler goes on to call the
provider. -/
structure ModelInput where
  model_name : Str
  api_key : Str
  messages : List Turn
  fetchCalls : Nat
  hist : List Turn
deriving DecidableEq, Repr

/-- Stages 1-5 of the handler (chat.py lines 35-148): client lookup and
configuration check, knowledge aggregation with its two not-ready
short-circuits, history fetch and sliding window, message assembly, and
the pre-flight token-budget check (skipped when the counting block
raises). -/
def assembleOrExit (env : ChatEnv) (req : ChatRequest) : EarlyExit ⊕ ModelInput :=
  match env.clientRow with
  | none => .inl ⟨.ok ⟨invalidClientMsg, false, false⟩, 0⟩
  | some cr =>
    if cr.api_key.isEmpty = true ∨ cr.model_name.isEmpty = true then
      .inl ⟨.ok ⟨notConfiguredMsg, false, false⟩, 0⟩
    else
      let kres : EarlyExit ⊕ (Str × Str × Nat) :=
        match req.temp_context with
        | some grid => .inr (grid, gridNote, 0)
        | none =>
          if env.kbs = [] then .inl ⟨.ok ⟨notReadyConfigMsg, false, false⟩, 0⟩
          else
            let agg := aggregate env
            if agg.2 = [] then .inl ⟨.ok ⟨notReadyEmptyMsg, false, false⟩, agg.1⟩
            else .inr (jsonArrOf agg.2, kbNote, agg.1)
      match kres with
      | .inl e => .inl e
      | .inr (knowledge, note, fc) =>
        let hist : List Turn :=
          match req.session_id with
          | some _ => env.sessionRow.getD []
          | none => []
        let recent := lastN 6 hist
        let learned := learnedContext env.resolved
        let msgs : List Turn :=
          ⟨"system".toList, systemPrompt cr knowledge learned note⟩ ::
            (recent.map mapRole ++ [⟨"user".toList, req.message⟩])
        let mi : ModelInput := ⟨cr.model_name, cr.api_key, msgs, fc, hist⟩
        match env.tokenEstimate with
        | none => .inr mi
        | some (tokens, maxOpt) =>
          let maxTok := maxOpt.getD 8000
          if tokens > maxTok then
            .inl ⟨.ok ⟨warningMsg cr.model_name tokens maxTok, false, false⟩, fc⟩
          else .inr mi

/-- The widget-facing JSON selection of chat.py lines 212-217. -/
def mkResp (c : ClassifyResult) : ChatResult :=
  if c.is_handoff = true then .ok ⟨c.frontend_reply, true, false⟩
  else if c.is_lead = true then .ok ⟨c.frontend_reply, false, true⟩
  else .ok ⟨c.frontend_reply, false, false⟩

/-- The row the handler hands to the `chat_sessions` upsert. -/
structure LedgerUpsert where
  session_id : Str
  client_id : Str
  messages : List Turn
  total_tokens : Int
  estimated_cost : Int
  model_used : Str
  handoff_triggered : Bool
deriving DecidableEq, Repr

/-- Everything observable about one handled request: the HTTP outcome,
whether the provider was invoked, how many record fetches ran, the ledger
row written (if any), and whether a write was attempted at all. -/
structure ChatOutcome where
  response : ChatResult
  modelInvoked : Bool
  fetchCalls : Nat
  ledgerWrite : Option LedgerUpsert
  writeAttempted : Bool
deriving DecidableEq, Repr

/-- The `/api/chat` handler end to end (chat.py lines 16-221).  After the
assembly stages: the provider call (an exception returns the 500 provider
error before anything is persisted), usage/cost extraction with the
degrade-to-zero defaults, response classification, and — only when a
session id was supplied — the transcript append and ledger upsert.  The
write sits inside a `try`/`finally` with no `except`, so a failing write
raises out of the handler (`ChatResult.exn`) instead of returning the
computed reply. -/
def chat (env : ChatEnv) (req : ChatRequest) : ChatOutcome :=
  match assembleOrExit env req with
  | .inl e =>
    { response := e.response, modelInvoked := false, fetchCalls := e.fetchCalls
      ledgerWrite := none, writeAttempted := false }
  | .inr mi =>
    match env.completionResult with
    | none =>
      { response := .err ⟨"AI Provider Error: ".toList ++ env.provErrText, false, false⟩ 500
        modelInvoked := true, fetchCalls := mi.fetchCalls
        ledgerWrite := none, writeAttempted := false }
    | some res =>
      let msg_tokens := res.usage.getD 0
      let msg_cost := res.cost.getD 0
      let c := classify res.text
      match req.session_id with
      | none =>
        { response := mkResp c, modelInvoked := true, fetchCalls := mi.fetchCalls
          ledgerWrite := none, writeAttempted := false }
      | some sid =>
        let newHist :=
          mi.hist ++ [⟨"user".toList, req.message⟩, ⟨"model".toList, c.frontend_reply⟩]
        let w : LedgerUpsert :=
          { session_id := sid, client_id := req.client_id, messages := newHist
            total_tokens := msg_tokens, estimated_cost := msg_cost
            model_used := mi.model_name, handoff_triggered := c.is_handoff }
        if env.writeOk = true then
          { response := mkResp c, modelInvoked := true, fetchCalls := mi.fetchCalls
            ledgerWrite := some w, writeAttempted := true }
        else
          { response := .exn, modelInvoked := true, fetchCalls := mi.fetchCalls
            ledgerWrite := none, writeAttempted := true }

/-- Outcome of the clustering completion call of handoff.py lines 68-80:
`failure` covers any raised exception (provider error, timeout, or
`json.loads` on malformed structured output); `success` carries the parsed
`cluster_id` (None encoding the "new topic" signal) and the optional
`combined_question`. -/
inductive ClassifierOutcome where
  | failure
  | success (cluster_id : Option Nat) (combined_question : Option Str)
deriving DecidableEq, Repr

/-- External observations of `request_handoff`: the tenant's pending
clusters (handoff.py line 47), the `(api_key, model_name)` client row
(line 55; None = no row), the clustering call's outcome, and the id the
database would assign to a freshly inserted cluster (the `RETURNING id`
of line 86). -/
structure HandoffEnv where
  pending : List (Nat × Str)
  clientConfig : Option (Str × Str)
  classifier : ClassifierOutcome
  freshId : Nat

/-- The write performed on `handoff_clusters`: either the combined-question
update of an existing cluster (handoff.py line 84) or the insertion of a
new cluster row (line 86). -/
inductive ClusterAction where
  | update (id : Nat) (combined : Str)
  | create (id : Nat) (question : Str)
deriving DecidableEq, Repr

/-- The cluster id an action resolves to. -/
def ClusterAction.cid : ClusterAction → Nat
  | .update i _ => i
  | .create i _ => i

/-- The database effects of one `/api/handoff/request` call: the cluster
write and the single `handoff_users` insert of handoff.py line 89. -/
structure HandoffResult where
  clusterAction : ClusterAction
  askerCluster : Nat
  askerEmail : Str
  askerQuestion : Str
deriving DecidableEq, Repr

/-- Step 2 of `request_handoff` (handoff.py lines 50-80): the pair
`(assigned_cluster_id, combined_q)` after the optional clustering call.
The classifier runs only when pending clusters exist and the client row
has a truthy api key; any classifier failure leaves the assigned id as
None; an untruthy returned `combined_question` leaves `combined_q` as the
raw question. -/
def clusterStep2 (env : HandoffEnv) (question : Str) : Option Nat × Str :=
  if env.pending ≠ [] then
    match env.clientConfig with
    | some cfg =>
      if cfg.1.isEmpty = false then
        match env.classifier with
        | .failure => (none, question)
        | .success cid cq =>
          (cid,
           match cq with
           | some c => if c.isEmpty = false then c else question
           | none => question)
      else (none, question)
    | none => (none, question)
  else (none, question)

/-- Steps 3 and 4 applied to step 2's result: a truthy (non-None,
non-zero) assigned id updates that cluster with the merged phrasing,
anything else inserts a new cluster with the raw `question`; the asker
row always records the verbatim email and question. -/
def request_handoff (env : HandoffEnv) (email question : Str) : HandoffResult :=
  match (clusterStep2 env question).1 with
  | some cid =>
    if cid ≠ 0 then
      ⟨.update cid (clusterStep2 env question).2, cid, email, question⟩
    else ⟨.create env.freshId question, env.freshId, email, question⟩
  | none => ⟨.create env.freshId question, env.freshId, email, question⟩

/-! Concrete sample inputs used to instantiate the theorems below. -/

/-- A configured sample tenant. -/
def sampleClient : ClientRow :=
  ⟨"Acme".toList, "sk-key".toList, "openai".toList, "gpt-4".toList, []⟩

/-- A baseline environment: configured tenant, no bindings, provider
answers "Hello!", write succeeds. -/
def baseEnv : ChatEnv where
  clientRow := some sampleClient
  kbs := []
  driveOk := false
  modifiedTime := fun _ => none
  syncResult := fun _ => none
  parseJson := fun _ => none
  sessionRow := none
  resolved := []
  tokenEstimate := none
  completionResult := some ⟨"Hello!".toList, some 10, some 2⟩
  provErrText := []
  writeOk := true

/-- A request carrying a session id and an inline grid. -/
def gridReq : ChatRequest :=
  ⟨"c1".toList, "hi".toList, some ("s1".toList), some ("[grid]".toList)⟩

/-- Same request without a session id. -/
def anonReq : ChatRequest :=
  ⟨"c1".toList, "hi".toList, none, some ("[grid]".toList)⟩

/-- Same request with neither session id nor inline grid. -/
def plainReq : ChatRequest :=
  ⟨"c1".toList, "hi".toList, none, none⟩

/-- Environment whose ledger write raises. -/
def env8bad : ChatEnv := { baseEnv with writeOk := false }

/-- Environment whose token estimate exceeds the default 8000 cap. -/
def env3 : ChatEnv := { baseEnv with tokenEstimate := some (9001, none) }

/-- Provider reply that triggers the lead-capture path. -/
def res10 : CompletionRes :=
  ⟨"Out of Stock right now. [LEAD_REQUIRED]".toList, some 10, some 2⟩

/-- Environment whose provider reply triggers lead capture. -/
def env10 : ChatEnv := { baseEnv with completionResult := some res10 }

/-- The model input actually assembled for `env10`/`gridReq` (the request
reaches the provider, so the sum is `.inr` and the fallback arm is
irrelevant). -/
def mi10 : ModelInput :=
  Sum.elim (fun _ => ⟨[], [], [], 0, []⟩) id (assembleOrExit env10 gridReq)

/-- A stored ledger row. -/
def row0 : SessionRow :=
  ⟨[⟨"user".toList, "q".toList⟩], 10, 3, "m1".toList, false⟩

/-- This turn's ledger contribution. -/
def new0 : SessionRow :=
  ⟨[⟨"user".toList, "q".toList⟩, ⟨"model".toList, "a".toList⟩], 20, 4,
   "m2".toList, true⟩

/-- A one-row session store holding `row0` under session id "s1". -/
def store0 : Str → Option SessionRow :=
  fun k => if k = "s1".toList then some row0 else none

/-- A stored timestamp without time zone information. -/
def db6 : DbTs := ⟨1000, none⟩

/-- A spreadsheet binding whose cache was synced at `db6`. -/
def kb6 : KbRow :=
  ⟨"f1".toList, "sheet".toList, "A:B".toList, "[cached]".toList, some db6⟩

/-- Environment whose Drive metadata reports the same instant `db6`
denotes, so the binding is fresh. -/
def env6 : ChatEnv :=
  { baseEnv with driveOk := true, modifiedTime := fun _ => some 1000 }

/-- A handoff environment with one pending cluster whose clustering call
raises. -/
def henv7 : HandoffEnv :=
  ⟨[(1, "Do you have it in red?".toList)],
   some ("sk-key".toList, "gpt-4".toList), .failure, 42⟩

/-- A list is a Boolean prefix of the empty list only when it is empty. -/
theorem isPrefixOf_nil (t : Str) : t.isPrefixOf ([] : Str) = true ↔ t = [] := by
  cases t <;> simp [List.isPrefixOf]

/-- A Boolean prefix is no longer than the list it heads. -/
theorem isPrefixOf_length : ∀ (t s : Str), t.isPrefixOf s = true → t.length ≤ s.length
  | [], _, _ => by simp
  | _ :: _, [], h => by simp [List.isPrefixOf] at h
  | a :: as, b :: bs, h => by
    simp only [List.isPrefixOf, Bool.and_eq_true, beq_iff_eq] at h
    simpa using Nat.succ_le_succ (isPrefixOf_length as bs h.2)

/-- Every list is a Boolean prefix of itself followed by anything. -/
theorem isPrefixOf_append_self : ∀ (t u : Str), t.isPrefixOf (t ++ u) = true
  | [], _ => by simp [List.isPrefixOf]
  | a :: as, u => by
    simp [List.isPrefixOf, isPrefixOf_append_self as u]

/-- The substring test accepts any string with the pattern in the middle. -/
theorem containsSub_append_mid : ∀ (a tok b : Str), containsSub tok (a ++ (tok ++ b)) = true
  | [], tok, b => by
    cases tok with
    | nil =>
      cases b <;> simp [containsSub, List.isPrefixOf]
    | cons t ts =>
      simp [containsSub, isPrefixOf_append_self]
  | c :: a', tok, b => by
    simp [containsSub, containsSub_append_mid a' tok b]

/-- A detected substring is no longer than the scanned string. -/
theorem containsSub_length : ∀ (tok s : Str), containsSub tok s = true → tok.length ≤ s.length
  | tok, [], h => by
    simp only [containsSub] at h
    simp [(isPrefixOf_nil tok).mp h]
  | tok, c :: rest, h => by
    simp only [containsSub, Bool.or_eq_true] at h
    rcases h with h | h
    · exact isPrefixOf_length _ _ h
    · exact Nat.le_succ_of_le (containsSub_length tok rest h)

/-- Deleting occurrences never lengthens the string. -/
theorem removeAllF_length_le (tok : Str) :
    ∀ (fuel : Nat) (s : Str), (removeAllF tok fuel s).length ≤ s.length
  | 0, s => by simp [removeAllF]
  | _ + 1, [] => by simp [removeAllF]
  | n + 1, c :: rest => by
    simp only [removeAllF]
    split
    · exact le_trans (removeAllF_length_le tok n _)
        (by simp [List.length_drop])
    · simpa using removeAllF_length_le tok n rest

/-- When the pattern occurs, deletion shortens the string by at least the
pattern's length. -/
theorem removeAllF_length_drop (tok : Str) (htok : tok ≠ []) :
    ∀ (fuel : Nat) (s : Str), s.length ≤ fuel → containsSub tok s = true →
      (removeAllF tok fuel s).length + tok.length ≤ s.length
  | fuel, [], _, hc => by
    simp only [containsSub] at hc
    exact absurd ((isPrefixOf_nil tok).mp hc) htok
  | 0, c :: rest, hle, _ => by simp at hle
  | n + 1, c :: rest, hle, hc => by
    simp only [removeAllF]
    split
    · next hpre =>
      have h1 := removeAllF_length_le tok n (((c :: rest).drop tok.length))
      have h2 : tok.length ≤ (c :: rest).length := isPrefixOf_length _ _ hpre
      simp only [List.length_drop] at h1
      omega
    · next hpre =>
      simp only [containsSub, Bool.or_eq_true] at hc
      rcases hc with hc | hc
      · exact absurd hc hpre
      · have := removeAllF_length_drop tok htok n rest (by simpa using Nat.lt_succ_iff.mp (Nat.lt_of_lt_of_le (Nat.lt_succ_of_le (le_refl _)) (by simpa using hle))) hc
        simpa [Nat.succ_add] using Nat.add_le_add_right this 0

/-- `removeAll` at its canonical fuel: occurrence implies a drop of at
least the token length. -/
theorem removeAll_length_drop (tok s : Str) (htok : tok ≠ [])
    (hc : containsSub tok s = true) :
    (removeAll tok s).length + tok.length ≤ s.length :=
  removeAllF_length_drop tok htok s.length s (le_refl _) hc

/-- Stripping never lengthens a string. -/
theorem pyStrip_length_le (s : Str) : (pyStrip s).length ≤ s.length := by
  unfold pyStrip
  calc (((s.dropWhile Char.isWhitespace).reverse.dropWhile Char.isWhitespace).reverse).length
      = ((s.dropWhile Char.isWhitespace).reverse.dropWhile Char.isWhitespace).length :=
        List.length_reverse _
    _ ≤ (s.dropWhile Char.isWhitespace).reverse.length :=
        ((List.dropWhile_suffix _).sublist).length_le
    _ = (s.dropWhile Char.isWhitespace).length := List.length_reverse _
    _ ≤ s.length := ((List.dropWhile_suffix _).sublist).length_le

/-- Case folding preserves length. -/
theorem toLowerStr_length (s : Str) : (toLowerStr s).length = s.length := by
  simp [toLowerStr]

/-- The cleaned lead reply is strictly shorter than the raw reply, hence
distinct from it. -/
theorem leadClean_ne (r : Str) (hl : containsSub leadToken (toLowerStr r) = true) :
    pyStrip (removeAll leadToken (toLowerStr r)) ≠ r := by
  intro heq
  have htok : leadToken ≠ [] := by decide
  have h1 := removeAll_length_drop leadToken (toLowerStr r) htok hl
  have h2 := pyStrip_length_le (removeAll leadToken (toLowerStr r))
  have h3 := toLowerStr_length r
  have h4 : leadToken.length = 15 := by decide
  have h5 : (pyStrip (removeAll leadToken (toLowerStr r))).length = r.length := by
    rw [heq]
  omega

/-- Claim C1: the response classification activates exactly one of
(none, handoff, lead); a case-insensitive hand-off token forces
handoff=true with the fixed apologetic reply regardless of the lead
token; lead is checked only when the hand-off token is absent; with
neither token the raw text passes through unmodified. -/
theorem classifyExclusive (r : Str) :
    (containsSub handoffToken (toLowerStr r) = true →
      (classify r).is_handoff = true ∧ (classify r).is_lead = false ∧
      (classify r).frontend_reply = apologyMsg) ∧
    (containsSub handoffToken (toLowerStr r) = false →
      (classify r).is_handoff = false ∧
      ((classify r).is_lead = true ↔ containsSub leadToken (toLowerStr r) = true)) ∧
    (containsSub handoffToken (toLowerStr r) = false →
      containsSub leadToken (toLowerStr r) = false →
      (classify r).is_handoff = false ∧ (classify r).is_lead = false ∧
      (classify r).frontend_reply = r) ∧
    ¬((classify r).is_handoff = true ∧ (classify r).is_lead = true) := by
  by_cases h1 : containsSub handoffToken (toLowerStr r) = true
  · simp [classify, h1]
  · by_cases h2 : containsSub leadToken (toLowerStr r) = true
    · simp [classify, h1, h2]
    · simp [classify, h1, h2]

/-- Witness for C1 at a reply carrying both reserved tokens. -/
theorem classifyExclusive_case :
    (classify "I am not sure. [HANDOFF_REQUIRED] also [LEAD_REQUIRED]".toList).is_handoff = true ∧
    (classify "I am not sure. [HANDOFF_REQUIRED] also [LEAD_REQUIRED]".toList).is_lead = false ∧
    (classify "I am not sure. [HANDOFF_REQUIRED] also [LEAD_REQUIRED]".toList).frontend_reply =
      apologyMsg :=
  (classifyExclusive ("I am not sure. [HANDOFF_REQUIRED] also [LEAD_REQUIRED]".toList)).1
    (by decide)

/-- Claim C2: the session-ledger upsert merges an existing row exactly as
the spec's merge function prescribes (transcript replaced, counters
incremented, model overwritten, escalation OR'd), inserts this turn's
values for a fresh session id, and touches no other session. -/
theorem upsertMergeEq (store : Str → Option SessionRow) (sid : Str) (new : SessionRow) :
    (∀ old, store sid = some old →
      applyUpsert store sid new sid = some (mergeSpec old new)) ∧
    (store sid = none → applyUpsert store sid new sid = some new) ∧
    (∀ k, k ≠ sid → applyUpsert store sid new k = store k) := by
  refine ⟨fun old h => ?_, fun h => ?_, fun k hk => ?_⟩
  · simp [applyUpsert, mergeSpec, h]
  · simp [applyUpsert, h]
  · simp [applyUpsert, hk]

/-- Witness for C2 on a concrete one-row store. -/
theorem upsertMergeEq_case :
    store0 ("s1".toList) = some row0 ∧
    applyUpsert store0 ("s1".toList) new0 ("s1".toList) = some (mergeSpec row0 new0) :=
  ⟨by decide, (upsertMergeEq store0 ("s1".toList) new0).1 row0 (by decide)⟩

/-- Claim C4 counterexample: for the raw reply "Sorry! We are Out of
Stock. [LEAD_REQUIRED]" the code lowercases the whole text before
stripping the token, so the user-visible reply is not the raw text with
the token removed and trimmed. -/
theorem leadCleanCase_cex :
    (classify "Sorry! We are Out of Stock. [LEAD_REQUIRED]".toList).is_lead = true ∧
    (classify "Sorry! We are Out of Stock. [LEAD_REQUIRED]".toList).frontend_reply =
      "sorry! we are out of stock.".toList ∧
    (classify "Sorry! We are Out of Stock. [LEAD_REQUIRED]".toList).frontend_reply ≠
      "Sorry! We are Out of Stock.".toList := by
  refine ⟨by decide, by decide, by decide⟩

/-- Claim C4 (amended): on a lead turn the user-visible reply equals the
lower-cased raw text with the reserved token removed and whitespace
trimmed. -/
theorem leadCleanLowered (r : Str)
    (hh : containsSub handoffToken (toLowerStr r) = false)
    (hl : containsSub leadToken (toLowerStr r) = true) :
    (classify r).is_lead = true ∧
    (classify r).frontend_reply = pyStrip (removeAll leadToken (toLowerStr r)) := by
  simp [classify, hh, hl]

/-- Witness for the amended C4. -/
theorem leadCleanLowered_case :
    (classify "Sorry, out of stock right now. [LEAD_REQUIRED]".toList).is_lead = true ∧
    (classify "Sorry, out of stock right now. [LEAD_REQUIRED]".toList).frontend_reply =
      pyStrip (removeAll leadToken (toLowerStr ("Sorry, out of stock right now. [LEAD_REQUIRED]".toList))) :=
  leadCleanLowered ("Sorry, out of stock right now. [LEAD_REQUIRED]".toList)
    (by decide) (by decide)


/-- Claim C6: a spreadsheet binding whose source modification instant is
not strictly newer than its stored last-synced timestamp (missing time
zone read as UTC) is not re-fetched: the aggregation step performs zero
record-fetch calls and contributes the cached snapshot byte for byte. -/
theorem syncIdempotent (env : ChatEnv) (kb : KbRow) (gt : Int) (ts : DbTs)
    (hft : kb.file_type = "sheet".toList) (hdr : env.driveOk = true)
    (hid : kb.file_id.isEmpty = false)
    (hmt : env.modifiedTime kb.file_id = some gt)
    (hts : kb.last_synced = some ts)
    (hst : gt ≤ toInstant ts) :
    (bindingStep env kb).fetchCalls = 0 ∧
    (bindingStep env kb).content = kb.cached_content := by
  have hnl : ¬(toInstant ts < gt) := not_lt.mpr hst
  simp [bindingStep, hft, hdr, hid, hmt, hts, hnl]

/-- Witness for C6: metadata instant equal to the naive-UTC stored
timestamp, hence fresh. -/
theorem syncIdempotent_case :
    (bindingStep env6 kb6).fetchCalls = 0 ∧
    (bindingStep env6 kb6).content = kb6.cached_content :=
  syncIdempotent env6 kb6 1000 db6 (by decide) rfl (by decide) rfl rfl (by decide)

/-- When the classifier is unavailable, raises, or signals a new topic,
step 2 assigns no cluster id. -/
theorem clusterStep2_none (env : HandoffEnv) (q : Str)
    (hcase : env.pending = [] ∨ env.clientConfig = none ∨
      (∃ cfg, env.clientConfig = some cfg ∧ cfg.1.isEmpty = true) ∨
      env.classifier = .failure ∨
      (∃ cq, env.classifier = .success none cq)) :
    (clusterStep2 env q).1 = none := by
  rcases hcase with h | h | ⟨cfg, hcfg, hkey⟩ | h | ⟨cq, h⟩
  · simp [clusterStep2, h]
  · by_cases hp : env.pending = [] <;> simp [clusterStep2, h, hp]
  · by_cases hp : env.pending = [] <;> simp [clusterStep2, hcfg, hkey, hp]
  · by_cases hp : env.pending = [] <;> cases hcc : env.clientConfig <;>
      simp [clusterStep2, h, hp, hcc]
  · by_cases hp : env.pending = [] <;> cases hcc : env.clientConfig <;>
      simp [clusterStep2, h, hp, hcc]
    split <;> simp

/-- Claim C7: whenever the clustering classifier is unavailable (no
pending clusters, missing client row, blank api key), raises, or signals
a new topic, the handoff falls back to creating a new cluster whose
combined question is the raw question verbatim; and in every outcome the
single asker row records the verbatim contact and question against the
resolved cluster id. -/
theorem handoffDegradesToNew (env : HandoffEnv) (email q : Str) :
    ((request_handoff env email q).askerCluster =
        (request_handoff env email q).clusterAction.cid ∧
      (request_handoff env email q).askerEmail = email ∧
      (request_handoff env email q).askerQuestion = q) ∧
    ((env.pending = [] ∨ env.clientConfig = none ∨
      (∃ cfg, env.clientConfig = some cfg ∧ cfg.1.isEmpty = true) ∨
      env.classifier = .failure ∨
      (∃ cq, env.classifier = .success none cq)) →
      (request_handoff env email q).clusterAction = .create env.freshId q) := by
  constructor
  · rcases h : (clusterStep2 env q).1 with _ | cid
    · simp [request_handoff, h, ClusterAction.cid]
    · by_cases hc : cid = 0 <;> simp [request_handoff, h, hc, ClusterAction.cid]
  · intro hcase
    simp [request_handoff, clusterStep2_none env q hcase]

/-- Witness for C7: classifier failure with one pending cluster. -/
theorem handoffDegradesToNew_case :
    (request_handoff henv7 ("a@b.c".toList) ("Is it available in black?".toList)).clusterAction =
      .create 42 ("Is it available in black?".toList) ∧
    (request_handoff henv7 ("a@b.c".toList) ("Is it available in black?".toList)).askerEmail =
      "a@b.c".toList :=
  ⟨(handoffDegradesToNew henv7 ("a@b.c".toList) ("Is it available in black?".toList)).2
      (Or.inr (Or.inr (Or.inr (Or.inl rfl)))),
   (handoffDegradesToNew henv7 ("a@b.c".toList) ("Is it available in black?".toList)).1.2.1⟩

/-- Claim C5: with no inline grid and empty aggregated knowledge (zero
bindings, or all bindings contributing nothing), the handler returns the
fixed not-ready reply and neither invokes the model nor writes a
transcript turn. -/
theorem emptyKnowledgeShortCircuit (env : ChatEnv) (req : ChatRequest) (cr : ClientRow)
    (hcr : env.clientRow = some cr)
    (hk : cr.api_key.isEmpty = false) (hm : cr.model_name.isEmpty = false)
    (ht : req.temp_context = none)
    (hagg : env.kbs = [] ∨ (aggregate env).2 = []) :
    ((chat env req).response = .ok ⟨notReadyConfigMsg, false, false⟩ ∨
      (chat env req).response = .ok ⟨notReadyEmptyMsg, false, false⟩) ∧
    (chat env req).modelInvoked = false ∧
    (chat env req).ledgerWrite = none := by
  by_cases hkbs : env.kbs = []
  · have hA : assembleOrExit env req = .inl ⟨.ok ⟨notReadyConfigMsg, false, false⟩, 0⟩ := by
      simp [assembleOrExit, hcr, hk, hm, ht, hkbs]
    simp [chat, hA]
  · rcases hagg with h | h
    · exact absurd h hkbs
    · have hA : assembleOrExit env req =
          .inl ⟨.ok ⟨notReadyEmptyMsg, false, false⟩, (aggregate env).1⟩ := by
        simp [assembleOrExit, hcr, hk, hm, ht, hkbs, h]
      simp [chat, hA]

/-- Witness for C5: configured tenant, no bindings, no inline grid. -/
theorem emptyKnowledgeShortCircuit_case :
    ((chat baseEnv plainReq).response = .ok ⟨notReadyConfigMsg, false, false⟩ ∨
      (chat baseEnv plainReq).response = .ok ⟨notReadyEmptyMsg, false, false⟩) ∧
    (chat baseEnv plainReq).modelInvoked = false ∧
    (chat baseEnv plainReq).ledgerWrite = none :=
  emptyKnowledgeShortCircuit baseEnv plainReq sampleClient rfl (by decide) (by decide)
    rfl (Or.inl rfl)

/-- The warning text cites the offending model by name. -/
theorem warningMsg_names_model (m : Str) (t mx : Nat) :
    containsSub m (warningMsg m t mx) = true := by
  unfold warningMsg
  simp only [List.append_assoc]
  exact containsSub_append_mid _ _ _

/-- Claim C3: when the assembled message list's token estimate strictly
exceeds the model's maximum context size (8000 when unknown), the
handler returns the warning reply naming the offending model, never
invokes the provider, and writes no transcript turn. -/
theorem tokenBudgetGuard (env : ChatEnv) (req : ChatRequest) (cr : ClientRow)
    (t : Nat) (mx : Option Nat)
    (hcr : env.clientRow = some cr)
    (hk : cr.api_key.isEmpty = false) (hm : cr.model_name.isEmpty = false)
    (hknow : (∃ g, req.temp_context = some g) ∨
      (env.kbs ≠ [] ∧ (aggregate env).2 ≠ []))
    (hte : env.tokenEstimate = some (t, mx))
    (hgt : mx.getD 8000 < t) :
    (chat env req).response =
      .ok ⟨warningMsg cr.model_name t (mx.getD 8000), false, false⟩ ∧
    containsSub cr.model_name (warningMsg cr.model_name t (mx.getD 8000)) = true ∧
    (chat env req).modelInvoked = false ∧
    (chat env req).ledgerWrite = none ∧
    (chat env req).writeAttempted = false := by
  have hA : ∃ fc, assembleOrExit env req =
      .inl ⟨.ok ⟨warningMsg cr.model_name t (mx.getD 8000), false, false⟩, fc⟩ := by
    rcases hknow with ⟨g, hg⟩ | ⟨hk1, hk2⟩
    · exact ⟨0, by simp [assembleOrExit, hcr, hk, hm, hg, hte, hgt]⟩
    · rcases htc : req.temp_context with _ | g
      · exact ⟨(aggregate env).1,
          by simp [assembleOrExit, hcr, hk, hm, hk1, hk2, hte, hgt, htc]⟩
      · exact ⟨0, by simp [assembleOrExit, hcr, hk, hm, hte, hgt, htc]⟩
  obtain ⟨fc, hA⟩ := hA
  refine ⟨?_, warningMsg_names_model _ _ _, ?_, ?_, ?_⟩ <;> simp [chat, hA]

/-- Witness for C3: a 9001-token estimate against the default 8000 cap. -/
theorem tokenBudgetGuard_case :
    (chat env3 gridReq).response =
      .ok ⟨warningMsg ("gpt-4".toList) 9001 8000, false, false⟩ ∧
    containsSub ("gpt-4".toList) (warningMsg ("gpt-4".toList) 9001 8000) = true ∧
    (chat env3 gridReq).modelInvoked = false ∧
    (chat env3 gridReq).ledgerWrite = none ∧
    (chat env3 gridReq).writeAttempted = false :=
  tokenBudgetGuard env3 gridReq sampleClient 9001 none rfl (by decide) (by decide)
    (Or.inl ⟨"[grid]".toList, rfl⟩) rfl (by decide)

/-- Claim C8: with the reply already computed, a successful ledger write
returns it as a JSON body, but a failing write makes the handler raise
(the `try` block has no `except`), so the caller gets Flask's bodyless
error page instead of the computed reply — the write failure does change
the user-visible outcome. -/
theorem ledgerFailureDiverges :
    (chat baseEnv gridReq).response = .ok ⟨"Hello!".toList, false, false⟩ ∧
    (chat env8bad gridReq).response = ChatResult.exn := by
  exact ⟨rfl, rfl⟩

/-- Claim C9: a request without a session id skips the ledger write
entirely — no row is touched, no write is attempted — and the rest of the
turn is unchanged: the response is independent of the write oracle, and a
completed provider call still yields the classified reply. -/
theorem anonymousSkipsLedger (env : ChatEnv) (req : ChatRequest)
    (h : req.session_id = none) :
    (chat env req).ledgerWrite = none ∧
    (chat env req).writeAttempted = false ∧
    (∀ w : Bool, (chat { env with writeOk := w } req).response = (chat env req).response) ∧
    (∀ mi res, assembleOrExit env req = .inr mi →
      env.completionResult = some res →
      (chat env req).response = mkResp (classify res.text)) := by
  obtain ⟨cid, m, sid, tc⟩ := req
  simp only at h
  subst h
  refine ⟨?_, ?_, fun w => rfl, fun mi res hA hc => ?_⟩
  · cases hA : assembleOrExit env ⟨cid, m, none, tc⟩
    · simp [chat, hA]
    · cases hC : env.completionResult <;> simp [chat, hA, hC]
  · cases hA : assembleOrExit env ⟨cid, m, none, tc⟩
    · simp [chat, hA]
    · cases hC : env.completionResult <;> simp [chat, hA, hC]
  · simp [chat, hA, hc]

/-- Witness for C9: the anonymous request leaves the ledger untouched and
its response ignores the write oracle. -/
theorem anonymousSkipsLedger_case :
    (chat baseEnv anonReq).ledgerWrite = none ∧
    (chat baseEnv anonReq).writeAttempted = false ∧
    (chat { baseEnv with writeOk := false } anonReq).response =
      (chat baseEnv anonReq).response :=
  ⟨(anonymousSkipsLedger baseEnv anonReq rfl).1,
   (anonymousSkipsLedger baseEnv anonReq rfl).2.1,
   (anonymousSkipsLedger baseEnv anonReq rfl).2.2.1 false⟩

/-- Claim C10: the assistant entry persisted for a turn is the
post-classification user-facing reply — the fixed apology on a handoff
turn, the cleaned token-stripped text on a lead turn — and raw model
output containing a reserved token is never what gets stored. -/
theorem persistedReplyClassified (env : ChatEnv) (req : ChatRequest)
    (mi : ModelInput) (sid : Str) (res : CompletionRes)
    (hA : assembleOrExit env req = .inr mi)
    (hs : req.session_id = some sid)
    (hc : env.completionResult = some res)
    (hw : env.writeOk = true) :
    (chat env req).ledgerWrite = some
      ⟨sid, req.client_id,
       mi.hist ++ [⟨"user".toList, req.message⟩,
                   ⟨"model".toList, (classify res.text).frontend_reply⟩],
       res.usage.getD 0, res.cost.getD 0, mi.model_name,
       (classify res.text).is_handoff⟩ ∧
    (containsSub handoffToken (toLowerStr res.text) = true →
      (classify res.text).frontend_reply = apologyMsg) ∧
    (containsSub handoffToken (toLowerStr res.text) = false →
      containsSub leadToken (toLowerStr res.text) = true →
      (classify res.text).frontend_reply =
        pyStrip (removeAll leadToken (toLowerStr res.text))) ∧
    ((containsSub handoffToken (toLowerStr res.text) = true ∨
      containsSub leadToken (toLowerStr res.text) = true) →
      (classify res.text).frontend_reply ≠ res.text) := by
  refine ⟨by simp [chat, hA, hs, hc, hw], fun hh => by simp [classify, hh],
    fun hh hl => by simp [classify, hh, hl], fun hor => ?_⟩
  by_cases hh : containsSub handoffToken (toLowerStr res.text) = true
  · simp only [classify, hh, if_pos]
    intro heq
    have : containsSub handoffToken (toLowerStr apologyMsg) = true := by
      rw [heq]; exact hh
    revert this
    decide
  · rcases hor with h | hl
    · exact absurd h hh
    · simpa [classify, hh, hl] using leadClean_ne res.text hl

/-- Witness for C10: a lead-capture turn whose stored assistant entry is
the cleaned reply and differs from the raw model output. -/
theorem persistedReplyClassified_case :
    (chat env10 gridReq).ledgerWrite = some
      ⟨"s1".toList, gridReq.client_id,
       mi10.hist ++ [⟨"user".toList, gridReq.message⟩,
                     ⟨"model".toList, (classify res10.text).frontend_reply⟩],
       res10.usage.getD 0, res10.cost.getD 0, mi10.model_name,
       (classify res10.text).is_handoff⟩ ∧
    (classify res10.text).frontend_reply ≠ res10.text :=
  ⟨(persistedReplyClassified env10 gridReq mi10 ("s1".toList) res10 rfl rfl rfl rfl).1,
   (persistedReplyClassified env10 gridReq mi10 ("s1".toList) res10 rfl rfl rfl rfl).2.2.2
     (Or.inr (by decide))⟩

end FloChat
